import Mathlib

/-
  Verification development for the recy-api error-classification layer and
  the audit-creation workflow.

  Shallow embedding of:
  - src/shared/utils/zod-validation.pipe.ts
      (ZodValidationPipe.transform, AllExceptionsFilter and its helpers
       getResponseMetadata, handleZodError, handlePrismaError,
       buildResponseBody, buildBaseResponseBody, build500Error)
  - the AuditService (two variants present in the source: variant A with
    per-step private helpers ensureReportExists / createAuditRecord /
    markReportAsAudited, and variant B with a single try/catch around the
    whole createAudit body).

  Modelling conventions:
  - Exceptions thrown by the TypeScript code are values of an inductive type
    `Exc`; service methods return `Except`.
  - The Prisma client is modelled as an explicit `Store` (lists of report and
    audit records) threaded through each operation; database failures of the
    create / update statements are injected through a `FaultSchedule`,
    because they come from the environment, not from the code under test.
  - NestJS wraps a string passed to an HttpException constructor into a
    response object carrying the same statusCode plus the message, so the
    JavaScript spread of that object over the envelope leaves statusCode
    unchanged; the model therefore keeps only the `message` and `details`
    keys of response objects.  A Prisma `meta.target` array interpolates into
    a template string comma-joined; the model carries that already-joined
    string as an `Option String` (`none` interpolates as "undefined").
  - Wall-clock timestamps and the ulid() correlation-id generator are
    nondeterministic inputs; they enter the model as plain parameters.
-/

namespace Recy

/-- One Zod validation issue: a message and a field path (list of segments). -/
structure ZodIssue where
  message : String
  path : List String
deriving Repr, DecidableEq

/-- One entry of the details payload built by ZodValidationPipe:
a dotted field path and a message. -/
structure FieldDetail where
  field : String
  message : String
deriving Repr, DecidableEq

/-- The details payload of an error envelope, as produced by this codebase. -/
abbrev ErrDetails := List FieldDetail

/-- The object form of an HttpException response body (the keys the envelope
interface can observe). -/
structure RespObj where
  message : String
  details : Option ErrDetails
deriving Repr, DecidableEq

/-- An HttpException response: getResponse() returns a string or an object. -/
inductive RespVal
  | str (s : String)
  | obj (o : RespObj)
deriving Repr, DecidableEq

/-- A raw failure reaching the global exception filter. -/
inductive Exc
  | zod (issues : List ZodIssue)
  | prisma (code : String) (metaTarget : Option String) (metaFieldName : Option String)
  | http (status : Nat) (isBadRequest : Bool) (response : RespVal)
  | other
deriving Repr, DecidableEq

/-- The message field of the envelope: a string, an HttpException response
object passed through whole, or the errors object built by handleZodError. -/
inductive MessageVal
  | str (s : String)
  | obj (o : RespObj)
  | zodObj (errors : List ZodIssue)
deriving Repr, DecidableEq

/-- Result of AllExceptionsFilter.getResponseMetadata. -/
structure ResponseMetadata where
  status : Nat
  message : MessageVal
  details : Option ErrDetails
deriving Repr, DecidableEq

/-- The wire envelope (interface ErrorDto). -/
structure ErrorDto where
  statusCode : Nat
  timestamp : String
  path : String
  message : MessageVal
  details : Option ErrDetails
  errorId : Option String
deriving Repr, DecidableEq

/-- The default message installed by getResponseMetadata before any
classifier matches. -/
def internalServerErrorMessage : String :=
  "Internal server error, contact support and provide the errorId"

/-- JavaScript template interpolation of a possibly-missing value. -/
def interpOpt : Option String → String
  | some s => s
  | none => "undefined"

/-- AllExceptionsFilter.handlePrismaError: branch on the Prisma error code. -/
def handlePrismaError (code : String) (metaTarget metaFieldName : Option String) :
    ResponseMetadata :=
  if code = "P2002" then
    ⟨400, .str ("Unique constraint failed on the field: " ++ interpOpt metaTarget), none⟩
  else if code = "P2003" then
    ⟨400, .str ("Foreign key constraint failed on the field: " ++ interpOpt metaFieldName), none⟩
  else if code = "P2025" then
    ⟨404, .str "Record not found for the specified operation.", none⟩
  else
    ⟨400, .str "Database error occurred", none⟩

/-- AllExceptionsFilter.handleZodError: 400 with a message object listing
every issue with its message and raw path. -/
def handleZodError (issues : List ZodIssue) : ResponseMetadata :=
  ⟨400, .zodObj (issues.map fun e => ⟨e.message, e.path⟩), none⟩

/-- AllExceptionsFilter.getResponseMetadata: the classification function.
Defaults to 500 with the generic message; ZodError and Prisma failures are
delegated; HttpExceptions pass their status through, with the
BadRequestException-with-object branch extracting message and details. -/
def getResponseMetadata : Exc → ResponseMetadata
  | .zod issues => handleZodError issues
  | .prisma code t f => handlePrismaError code t f
  | .http status isBad resp =>
    match isBad, resp with
    | true, .obj o => ⟨status, .str o.message, o.details⟩
    | _, .str s => ⟨status, .str s, none⟩
    | false, .obj o => ⟨status, .obj o, none⟩
  | .other => ⟨500, .str internalServerErrorMessage, none⟩

/-- AllExceptionsFilter.buildBaseResponseBody. -/
def buildBaseResponseBody (status : Nat) (requestUrl timestamp : String)
    (message : MessageVal) (details : Option ErrDetails) : ErrorDto :=
  ⟨status, timestamp, requestUrl, message, details, none⟩

/-- The JavaScript spread of an object-typed message over the response body
(non-500 branch of buildResponseBody).  Spreading a response object
overwrites the message key with its inner string and the details key when
present; spreading the zod errors object touches no envelope key. -/
def spreadMessage (body : ErrorDto) : ErrorDto :=
  match body.message with
  | .obj o =>
    { body with
      message := .str o.message
      details := match o.details with
        | some d => some d
        | none => body.details }
  | _ => body

/-- AllExceptionsFilter.build500Error: attach the generated correlation id
(the error-level log emission is a side effect outside the envelope). -/
def build500Error (errorId : String) (responseBody : ErrorDto) : ErrorDto :=
  { responseBody with errorId := some errorId }

/-- AllExceptionsFilter.buildResponseBody. -/
def buildResponseBody (status : Nat) (requestUrl timestamp : String)
    (message : MessageVal) (details : Option ErrDetails) (errorId : String) :
    ErrorDto :=
  let responseBody := buildBaseResponseBody status requestUrl timestamp message details
  if status ≠ 500 then spreadMessage responseBody
  else build500Error errorId responseBody

/-- AllExceptionsFilter.catch: classify, then build the envelope.
requestUrl, timestamp and the generated errorId are environment inputs. -/
def respond (e : Exc) (requestUrl timestamp errorId : String) : ErrorDto :=
  let md := getResponseMetadata e
  buildResponseBody md.status requestUrl timestamp md.message md.details errorId

/-- The details list built by ZodValidationPipe.transform from the issues of
a caught ZodError: field path segments joined with a dot. -/
def zodDetails (issues : List ZodIssue) : ErrDetails :=
  issues.map fun e => ⟨String.intercalate "." e.path, e.message⟩

/-- ZodValidationPipe.transform.  The outcome of schema.parse is an input:
success value, or the failure it threw.  A caught ZodError becomes a
BadRequestException carrying the Validation failed message and the details
list; any other failure is rethrown unchanged. -/
def transform {α : Type} (parseResult : Except Exc α) : Except Exc α :=
  match parseResult with
  | .ok v => .ok v
  | .error e =>
    match e with
    | .zod issues =>
      .error (.http 400 true (.obj ⟨"Validation failed", some (zodDetails issues)⟩))
    | e2 => .error e2

/-- A recycling report row (the fields the audit workflow touches). -/
structure ReportRecord where
  id : String
  audited : Bool
deriving Repr, DecidableEq

/-- An audit row, as created by AuditService.createAudit. -/
structure AuditRecord where
  id : String
  reportId : String
  audited : Bool
  auditorId : String
  comments : Option String
deriving Repr, DecidableEq

/-- The persistence backend visible to the audit service. -/
structure Store where
  reports : List ReportRecord
  audits : List AuditRecord
deriving Repr, DecidableEq

/-- CreateAuditDto. -/
structure CreateAuditDto where
  reportId : String
  audited : Bool
  auditorId : String
  comments : Option String
deriving Repr, DecidableEq

/-- The HttpExceptions the audit service throws, by constructor and message:
NotFoundException 404, BadRequestException 400, InternalServerErrorException
500. -/
inductive ServiceError
  | notFound (msg : String)
  | badRequest (msg : String)
  | internalServerError (msg : String)
deriving Repr, DecidableEq

/-- The HTTP status of a thrown service error. -/
def ServiceError.statusOf : ServiceError → Nat
  | .notFound _ => 404
  | .badRequest _ => 400
  | .internalServerError _ => 500

/-- A database failure raised by a Prisma statement: a known Prisma request
error (code plus meta) or anything else. -/
inductive DbError
  | prismaKnown (code : String) (metaTarget : Option String) (metaFieldName : Option String)
  | unknown (msg : String)
deriving Repr, DecidableEq

/-- Environment-injected failures of the two write statements of the
audit-creation workflow (none means the statement succeeds). -/
structure FaultSchedule where
  createFault : Option DbError
  updateFault : Option DbError
deriving Repr, DecidableEq

/-- prisma.recyclingReport.findUnique on id. -/
def findReport (s : Store) (id : String) : Option ReportRecord :=
  s.reports.find? fun r => r.id = id

/-- prisma.audit.findUnique on id. -/
def findAudit (s : Store) (id : String) : Option AuditRecord :=
  s.audits.find? fun a => a.id = id

/-- prisma.recyclingReport.update setting the audited flag of the row with
the given id. -/
def setReportAudited (s : Store) (id : String) (audited : Bool) : Store :=
  { s with
    reports := s.reports.map fun r =>
      if r.id = id then { r with audited := audited } else r }

/-- prisma.audit.create. -/
def addAudit (s : Store) (a : AuditRecord) : Store :=
  { s with audits := s.audits ++ [a] }

/-- AuditService.createAudit, variant A (per-step helpers).
ensureReportExists throws NotFoundException when the report is missing;
createAuditRecord catches any database failure and throws a fixed
BadRequestException; markReportAsAudited catches any database failure and
throws a fixed InternalServerErrorException.  The generated ulid for the new
audit enters as the auditId parameter. -/
def createAuditA (s : Store) (dto : CreateAuditDto) (auditId : String)
    (faults : FaultSchedule) : Except ServiceError AuditRecord × Store :=
  match findReport s dto.reportId with
  | none =>
    (.error (.notFound "Audit creation failed because there is no valid report with this ID."), s)
  | some _ =>
    match faults.createFault with
    | some _ =>
      (.error (.badRequest "Audit creation failed due to an issue while saving the audit record."), s)
    | none =>
      let audit : AuditRecord := ⟨auditId, dto.reportId, dto.audited, dto.auditorId, dto.comments⟩
      let s1 := addAudit s audit
      match faults.updateFault with
      | some _ =>
        (.error (.internalServerError "Audit was created, but marking the report as audited failed."), s1)
      | none =>
        (.ok audit, setReportAudited s1 dto.reportId dto.audited)

/-- The catch block of AuditService.createAudit, variant B, applied to a
database failure: Prisma P2003 and P2002 get dedicated BadRequestExceptions
naming the field(s); every other non-HttpException failure becomes the
generic InternalServerErrorException.  (The NotFoundException thrown inside
the try block is rethrown unchanged by the HttpException branch; the model
returns it directly at the throw site.) -/
def classifyCreateAuditError : DbError → ServiceError
  | .prismaKnown code t f =>
    if code = "P2003" then
      .badRequest ("Foreign key constraint failed on the field: " ++ interpOpt f)
    else if code = "P2002" then
      .badRequest ("Unique constraint failed on the field: " ++ interpOpt t)
    else
      .internalServerError "An unexpected error occurred."
  | .unknown _ => .internalServerError "An unexpected error occurred."

/-- AuditService.createAudit, variant B (single try/catch): look up the
report, throw NotFoundException when absent, create the audit row, update
the report flag, return the audit; any database failure of the two writes
goes through the catch-block classification. -/
def createAuditB (s : Store) (dto : CreateAuditDto) (auditId : String)
    (faults : FaultSchedule) : Except ServiceError AuditRecord × Store :=
  match findReport s dto.reportId with
  | none =>
    (.error (.notFound ("RecyclingReport with ID " ++ dto.reportId ++ " not found.")), s)
  | some _ =>
    match faults.createFault with
    | some e => (.error (classifyCreateAuditError e), s)
    | none =>
      let audit : AuditRecord := ⟨auditId, dto.reportId, dto.audited, dto.auditorId, dto.comments⟩
      let s1 := addAudit s audit
      match faults.updateFault with
      | some e => (.error (classifyCreateAuditError e), s1)
      | none =>
        (.ok audit, setReportAudited s1 dto.reportId dto.audited)

/-- AuditService.findAuditById, variant B: declared to return Audit or null,
it throws NotFoundException when findUnique came back empty and otherwise
returns the (non-null) row. -/
def findAuditByIdB (s : Store) (id : String) :
    Except ServiceError (Option AuditRecord) :=
  let audit := findAudit s id
  if audit.isNone then
    .error (.notFound ("Audit with ID " ++ id ++ " not found."))
  else
    .ok audit

/-- AuditService.findAuditById, variant A: findUniqueOrThrow, which raises a
Prisma known request error with code P2025 when the row is absent. -/
def findAuditByIdA (s : Store) (id : String) : Except Exc AuditRecord :=
  match findAudit s id with
  | none => .error (.prisma "P2025" none none)
  | some audit => .ok audit

/-! Helper lemmas shared by the claim theorems. -/

theorem spreadMessage_statusCode (b : ErrorDto) :
    (spreadMessage b).statusCode = b.statusCode := by
  unfold spreadMessage
  split <;> rfl

theorem spreadMessage_errorId (b : ErrorDto) :
    (spreadMessage b).errorId = b.errorId := by
  unfold spreadMessage
  split <;> rfl

theorem respond_statusCode (e : Exc) (u t g : String) :
    (respond e u t g).statusCode = (getResponseMetadata e).status := by
  by_cases h : (getResponseMetadata e).status = 500 <;>
    simp [respond, buildResponseBody, build500Error, buildBaseResponseBody, h,
      spreadMessage_statusCode]

theorem respond_errorId (e : Exc) (u t g : String) :
    (respond e u t g).errorId
      = if (getResponseMetadata e).status = 500 then some g else none := by
  by_cases h : (getResponseMetadata e).status = 500 <;>
    simp [respond, buildResponseBody, build500Error, buildBaseResponseBody, h,
      spreadMessage_errorId]

/-- Claim C2, counterexample.  The claim states that errorId is present if
and only if the statusCode is 500-class (5xx).  A deliberately thrown
HttpException with status 503 passes through the filter with statusCode 503,
which is 500-class, yet its envelope carries no errorId: the filter attaches
errorId only when the status is exactly 500. -/
theorem c2_errorId_500_class_counterexample :
    500 ≤ (respond (.http 503 false (.str "Service Unavailable")) "/health" "t0" "id0").statusCode
    ∧ (respond (.http 503 false (.str "Service Unavailable")) "/health" "t0" "id0").statusCode < 600
    ∧ (respond (.http 503 false (.str "Service Unavailable")) "/health" "t0" "id0").errorId = none := by
  refine ⟨?_, ?_, ?_⟩ <;> decide

/-- Claim C2, amended: for every failure processed by the filter, the
envelope carries an errorId exactly when its statusCode is exactly 500; in
particular no 4xx response ever carries one. -/
theorem c2_errorId_iff_status500 (e : Exc) (u t g : String) :
    ((respond e u t g).errorId.isSome ↔ (respond e u t g).statusCode = 500)
    ∧ (400 ≤ (respond e u t g).statusCode ∧ (respond e u t g).statusCode < 500 →
        (respond e u t g).errorId = none) := by
  rw [respond_errorId, respond_statusCode]
  by_cases h : (getResponseMetadata e).status = 500 <;> simp [h]

/-- Claim C3, counterexample.  The claim states that every 500-classified
failure gets the fixed generic public message and that a deliberately thrown
500-class HttpException is re-routed to the generic classification.  In the
code, the HttpException branch of getResponseMetadata passes the message
through for any status, so an InternalServerErrorException reaches the
envelope with its own text, not the generic message. -/
theorem c3_500_messages_counterexample :
    (respond (.http 500 false (.obj ⟨"secret internal failure detail", none⟩)) "/a" "t0" "id0").statusCode = 500
    ∧ (respond (.http 500 false (.obj ⟨"secret internal failure detail", none⟩)) "/a" "t0" "id0").message
        = .obj ⟨"secret internal failure detail", none⟩
    ∧ (respond (.http 500 false (.obj ⟨"secret internal failure detail", none⟩)) "/a" "t0" "id0").message
        ≠ .str internalServerErrorMessage := by
  refine ⟨?_, ?_, ?_⟩ <;> decide

/-- Claim C3, amended: only failures that match no classifier (neither
ZodError nor Prisma error nor HttpException) receive the fixed generic
500 message; a deliberately thrown 500-class HttpException keeps its own
status and message in the envelope.  Every envelope whose status is 500
receives the correlation id, and the non-500 merge of structured failure
content never runs on the 500 path. -/
theorem c3_500_generic_only_for_unmatched (u t g : String) (o : RespObj) (s : String) :
    (respond .other u t g).message = .str internalServerErrorMessage
    ∧ (respond .other u t g).statusCode = 500
    ∧ (respond .other u t g).errorId = some g
    ∧ (respond (.http 500 false (.obj o)) u t g).message = .obj o
    ∧ (respond (.http 500 false (.obj o)) u t g).errorId = some g
    ∧ (respond (.http 500 false (.str s)) u t g).message = .str s
    ∧ (respond (.http 500 false (.str s)) u t g).errorId = some g :=
  ⟨rfl, rfl, rfl, rfl, rfl, rfl, rfl⟩

/-- Claim C4, counterexample.  The claim states that a uniqueness-constraint
violation is classified with HTTP status 409; handlePrismaError leaves the
status at 400 for code P2002. -/
theorem c4_unique_violation_409_counterexample :
    (getResponseMetadata (.prisma "P2002" (some "auditorId,reportId") none)).status = 400
    ∧ (getResponseMetadata (.prisma "P2002" (some "auditorId,reportId") none)).status ≠ 409 := by
  refine ⟨?_, ?_⟩ <;> decide

/-- Claim C4, amended: classifying a storage uniqueness-constraint violation
yields HTTP status 400 (not 409) with a message naming the offending
field(s) taken from the constraint target. -/
theorem c4_unique_violation_status400_names_fields (target : String) (f : Option String) :
    (getResponseMetadata (.prisma "P2002" (some target) f)).status = 400
    ∧ (getResponseMetadata (.prisma "P2002" (some target) f)).message
        = .str ("Unique constraint failed on the field: " ++ target) :=
  ⟨rfl, rfl⟩

/-- Claim C9: classification is deterministic and pure.  The embedding of
getResponseMetadata is a total function of the failure value alone, so two
calls on the same failure agree, and the classified status, message and
details of the envelope do not depend on the request context or on the
generated correlation id. -/
theorem c9_classification_deterministic (e : Exc) (u t g u2 t2 g2 : String) :
    getResponseMetadata e = getResponseMetadata e
    ∧ (respond e u t g).statusCode = (respond e u2 t2 g2).statusCode
    ∧ (respond e u t g).message = (respond e u2 t2 g2).message
    ∧ (respond e u t g).details = (respond e u2 t2 g2).details := by
  refine ⟨rfl, ?_, ?_, ?_⟩
  · rw [respond_statusCode, respond_statusCode]
  · by_cases h : (getResponseMetadata e).status = 500
    · simp [respond, buildResponseBody, build500Error, buildBaseResponseBody, h]
    · simp only [respond, buildResponseBody, build500Error, buildBaseResponseBody, h,
        spreadMessage, if_true, ne_eq, not_false_eq_true, if_pos]
      cases hm : (getResponseMetadata e).message <;> simp [hm]
  · by_cases h : (getResponseMetadata e).status = 500
    · simp [respond, buildResponseBody, build500Error, buildBaseResponseBody, h]
    · simp only [respond, buildResponseBody, build500Error, buildBaseResponseBody, h,
        spreadMessage, if_true, ne_eq, not_false_eq_true, if_pos]
      cases hm : (getResponseMetadata e).message <;> simp [hm]

/-- Claim C8, counterexample.  The claim requires every details entry to
carry a non-empty field path.  A ZodError issue whose path is empty (a
top-level issue) produces through the validation pipe a details entry whose
field is the empty string, which the filter forwards unchanged into the
envelope of the resulting 400 response. -/
theorem c8_nonempty_path_counterexample :
    @transform Unit (.error (.zod [⟨"Required", []⟩]))
      = .error (.http 400 true (.obj ⟨"Validation failed", some [⟨"", "Required"⟩]⟩))
    ∧ (respond (.http 400 true (.obj ⟨"Validation failed", some [⟨"", "Required"⟩]⟩))
        "/v1/audits" "t0" "id0").details = some [⟨"", "Required"⟩]
    ∧ (respond (.http 400 true (.obj ⟨"Validation failed", some [⟨"", "Required"⟩]⟩))
        "/v1/audits" "t0" "id0").statusCode = 400 :=
  ⟨rfl, rfl, rfl⟩

/-- Claim C8, amended: for a validation failure with N individual issues,
the pipe throws a BadRequestException whose details list has exactly one
entry per issue, carrying the issue message and the field path segments
joined with a dot (possibly empty for a top-level issue), and the filter
puts that list, unchanged, into the details of a 400 envelope; a ZodError
reaching the filter directly yields a 400 envelope whose message object
lists exactly one entry per issue, carrying the issue message and its raw
path segments. -/
theorem c8_one_detail_entry_per_issue (issues : List ZodIssue) (u t g : String) :
    @transform Unit (.error (.zod issues))
      = .error (.http 400 true (.obj ⟨"Validation failed", some (zodDetails issues)⟩))
    ∧ zodDetails issues
        = issues.map (fun e => ⟨String.intercalate "." e.path, e.message⟩)
    ∧ (zodDetails issues).length = issues.length
    ∧ (respond (.http 400 true (.obj ⟨"Validation failed", some (zodDetails issues)⟩)) u t g).details
        = some (zodDetails issues)
    ∧ (respond (.http 400 true (.obj ⟨"Validation failed", some (zodDetails issues)⟩)) u t g).statusCode
        = 400
    ∧ (respond (.zod issues) u t g).message
        = .zodObj (issues.map fun e => ⟨e.message, e.path⟩)
    ∧ (issues.map fun e => (⟨e.message, e.path⟩ : ZodIssue)).length = issues.length
    ∧ (respond (.zod issues) u t g).statusCode = 400 := by
  refine ⟨rfl, rfl, ?_, rfl, rfl, rfl, ?_, rfl⟩ <;>
    simp [zodDetails]

/-- Claim C10: findAuditById (the variant declared to return Audit or null)
never produces a null success value: for every store and id it either
returns the audit row whose id matches the argument, or fails with the
NotFoundException naming the id.  The other variant uses findUniqueOrThrow,
whose missing-row failure is a Prisma P2025 error that the exception filter
classifies as 404. -/
theorem c10_findAuditById_never_null (s : Store) (id : String) :
    ((∃ a : AuditRecord, findAuditByIdB s id = .ok (some a) ∧ a.id = id)
      ∨ findAuditByIdB s id = .error (.notFound ("Audit with ID " ++ id ++ " not found.")))
    ∧ ((∃ a : AuditRecord, findAuditByIdA s id = .ok a ∧ a.id = id)
      ∨ findAuditByIdA s id = .error (.prisma "P2025" none none))
    ∧ (getResponseMetadata (.prisma "P2025" none none)).status = 404 := by
  refine ⟨?_, ?_, rfl⟩
  · cases hfind : findAudit s id with
    | none => right; simp [findAuditByIdB, hfind]
    | some a =>
      left
      refine ⟨a, by simp [findAuditByIdB, hfind], ?_⟩
      have := List.find?_some hfind
      simpa using this
  · cases hfind : findAudit s id with
    | none => right; simp [findAuditByIdA, hfind]
    | some a =>
      left
      refine ⟨a, by simp [findAuditByIdA, hfind], ?_⟩
      have := List.find?_some hfind
      simpa using this

theorem find?_map_update (l : List ReportRecord) (id : String) (b : Bool) :
    (l.map fun r => if r.id = id then { r with audited := b } else r).find?
        (fun r => r.id = id)
      = (l.find? fun r => r.id = id).map fun r => { r with audited := b } := by
  induction l with
  | nil => rfl
  | cons r rs ih =>
    by_cases h : r.id = id <;>
      simp [h, List.find?_cons_of_pos, List.find?_cons_of_neg, ih]

/-- Claim C6: when the referenced report id is absent from the store, both
variants of the audit-creation workflow halt at step 1 with a
NotFoundException and leave the store exactly as it was: no audit row is
created and no report row is updated. -/
theorem c6_missing_report_halts (s : Store) (dto : CreateAuditDto) (auditId : String)
    (faults : FaultSchedule) (h : findReport s dto.reportId = none) :
    createAuditA s dto auditId faults
      = (.error (.notFound "Audit creation failed because there is no valid report with this ID."), s)
    ∧ createAuditB s dto auditId faults
      = (.error (.notFound ("RecyclingReport with ID " ++ dto.reportId ++ " not found.")), s) := by
  constructor <;> simp [createAuditA, createAuditB, h]

/-- Claim C6 witness: for the store holding only report r-1, a request for
the missing id r-404 halts with NotFound and the store is unchanged. -/
theorem c6_missing_report_halts_witness :
    createAuditA ⟨[⟨"r-1", false⟩], []⟩ ⟨"r-404", true, "a-1", none⟩ "01A" ⟨none, none⟩
      = (.error (.notFound "Audit creation failed because there is no valid report with this ID."),
         ⟨[⟨"r-1", false⟩], []⟩)
    ∧ createAuditB ⟨[⟨"r-1", false⟩], []⟩ ⟨"r-404", true, "a-1", none⟩ "01A" ⟨none, none⟩
      = (.error (.notFound ("RecyclingReport with ID " ++ "r-404" ++ " not found.")),
         ⟨[⟨"r-1", false⟩], []⟩) :=
  c6_missing_report_halts ⟨[⟨"r-1", false⟩], []⟩ ⟨"r-404", true, "a-1", none⟩ "01A"
    ⟨none, none⟩ (by decide)

/-- Claim C7: when the report exists and every step succeeds, both variants
return the created AuditRecord whose audited field equals the request value,
append exactly that record to the audit table, and leave the referenced
report with its audited flag equal to that same value. -/
theorem c7_success_flags_match (s : Store) (dto : CreateAuditDto) (auditId : String)
    (r : ReportRecord) (hrep : findReport s dto.reportId = some r) :
    (createAuditB s dto auditId ⟨none, none⟩).1
      = .ok ⟨auditId, dto.reportId, dto.audited, dto.auditorId, dto.comments⟩
    ∧ ((findReport (createAuditB s dto auditId ⟨none, none⟩).2 dto.reportId).map
        fun r2 => r2.audited) = some dto.audited
    ∧ (createAuditB s dto auditId ⟨none, none⟩).2.audits
      = s.audits ++ [⟨auditId, dto.reportId, dto.audited, dto.auditorId, dto.comments⟩]
    ∧ createAuditA s dto auditId ⟨none, none⟩ = createAuditB s dto auditId ⟨none, none⟩ := by
  have hfind : s.reports.find? (fun r2 => r2.id = dto.reportId) = some r := hrep
  refine ⟨?_, ?_, ?_, ?_⟩
  · simp [createAuditB, hrep]
  · simp only [createAuditB, hrep]
    unfold findReport setReportAudited addAudit
    rw [find?_map_update, hfind]
    rfl
  · simp [createAuditB, hrep, addAudit, setReportAudited]
  · simp [createAuditA, createAuditB, hrep]

/-- Claim C7 witness: report r-1 starting unaudited, request
reportId r-1, audited true, auditorId a-1: the created audit has
audited true and report r-1 ends audited. -/
theorem c7_success_flags_match_witness :
    (createAuditB ⟨[⟨"r-1", false⟩], []⟩ ⟨"r-1", true, "a-1", none⟩ "01A" ⟨none, none⟩).1
      = .ok ⟨"01A", "r-1", true, "a-1", none⟩
    ∧ ((findReport (createAuditB ⟨[⟨"r-1", false⟩], []⟩ ⟨"r-1", true, "a-1", none⟩ "01A"
          ⟨none, none⟩).2 "r-1").map fun r2 => r2.audited) = some true
    ∧ (createAuditB ⟨[⟨"r-1", false⟩], []⟩ ⟨"r-1", true, "a-1", none⟩ "01A" ⟨none, none⟩).2.audits
      = [] ++ [⟨"01A", "r-1", true, "a-1", none⟩]
    ∧ createAuditA ⟨[⟨"r-1", false⟩], []⟩ ⟨"r-1", true, "a-1", none⟩ "01A" ⟨none, none⟩
      = createAuditB ⟨[⟨"r-1", false⟩], []⟩ ⟨"r-1", true, "a-1", none⟩ "01A" ⟨none, none⟩ :=
  c7_success_flags_match ⟨[⟨"r-1", false⟩], []⟩ ⟨"r-1", true, "a-1", none⟩ "01A"
    ⟨"r-1", false⟩ (by decide)

/-- Claim C5: in the catch-all variant of the workflow, a failure of the
audit-creation statement (step 2) leaves the store untouched (so the report
flag update of step 3 is never performed and no audit row exists) and is
classified by the catch block: a P2002 uniqueness violation becomes the
400 conflict response naming the constraint fields, a P2003 foreign-key
violation becomes a 400 naming the field, and any other failure becomes the
generic 500. -/
theorem c5_step2_failure_classified (s : Store) (dto : CreateAuditDto) (auditId : String)
    (uf : Option DbError) (r : ReportRecord) (t f : Option String) (m : String)
    (code : String) (hrep : findReport s dto.reportId = some r)
    (hc2 : code ≠ "P2002") (hc3 : code ≠ "P2003") :
    createAuditB s dto auditId ⟨some (.prismaKnown "P2002" t f), uf⟩
      = (.error (.badRequest ("Unique constraint failed on the field: " ++ interpOpt t)), s)
    ∧ createAuditB s dto auditId ⟨some (.prismaKnown "P2003" t f), uf⟩
      = (.error (.badRequest ("Foreign key constraint failed on the field: " ++ interpOpt f)), s)
    ∧ createAuditB s dto auditId ⟨some (.prismaKnown code t f), uf⟩
      = (.error (.internalServerError "An unexpected error occurred."), s)
    ∧ createAuditB s dto auditId ⟨some (.unknown m), uf⟩
      = (.error (.internalServerError "An unexpected error occurred."), s) := by
  refine ⟨?_, ?_, ?_, ?_⟩ <;>
    simp [createAuditB, hrep, classifyCreateAuditError, hc2, hc3]

/-- Claim C5 witness: with report r-1 present, a duplicate-key P2002 on
step 2 yields the 400 naming auditorId and reportId, a P2003 yields the 400
naming the field, a P2025 and an unknown failure yield the generic 500, and
in every case the store is unchanged. -/
theorem c5_step2_failure_classified_witness :
    createAuditB ⟨[⟨"r-1", false⟩], []⟩ ⟨"r-1", true, "a-1", none⟩ "01A"
        ⟨some (.prismaKnown "P2002" (some "auditorId,reportId") (some "reportId")), none⟩
      = (.error (.badRequest ("Unique constraint failed on the field: "
          ++ interpOpt (some "auditorId,reportId"))), ⟨[⟨"r-1", false⟩], []⟩)
    ∧ createAuditB ⟨[⟨"r-1", false⟩], []⟩ ⟨"r-1", true, "a-1", none⟩ "01A"
        ⟨some (.prismaKnown "P2003" (some "auditorId,reportId") (some "reportId")), none⟩
      = (.error (.badRequest ("Foreign key constraint failed on the field: "
          ++ interpOpt (some "reportId"))), ⟨[⟨"r-1", false⟩], []⟩)
    ∧ createAuditB ⟨[⟨"r-1", false⟩], []⟩ ⟨"r-1", true, "a-1", none⟩ "01A"
        ⟨some (.prismaKnown "P2025" (some "auditorId,reportId") (some "reportId")), none⟩
      = (.error (.internalServerError "An unexpected error occurred."), ⟨[⟨"r-1", false⟩], []⟩)
    ∧ createAuditB ⟨[⟨"r-1", false⟩], []⟩ ⟨"r-1", true, "a-1", none⟩ "01A"
        ⟨some (.unknown "connection reset"), none⟩
      = (.error (.internalServerError "An unexpected error occurred."), ⟨[⟨"r-1", false⟩], []⟩) :=
  c5_step2_failure_classified ⟨[⟨"r-1", false⟩], []⟩ ⟨"r-1", true, "a-1", none⟩ "01A"
    none ⟨"r-1", false⟩ (some "auditorId,reportId") (some "reportId") "connection reset"
    "P2025" (by decide) (by decide) (by decide)

/-- Claim C1, counterexample.  The claim states that a step-3 failure after
a successful step 2 is surfaced as a distinguishable outcome naming the step
ReportFlagUpdated.  In the catch-all variant, a step-3 failure returns the
generic InternalServerErrorException, byte-identical to what a step-2
failure with the same underlying error returns: no step name and no
distinguishable outcome. -/
theorem c1_step3_distinguishable_counterexample :
    (createAuditB ⟨[⟨"r-1", false⟩], []⟩ ⟨"r-1", true, "a-1", none⟩ "01A"
        ⟨none, some (.unknown "connection reset")⟩).1
      = .error (.internalServerError "An unexpected error occurred.")
    ∧ (createAuditB ⟨[⟨"r-1", false⟩], []⟩ ⟨"r-1", true, "a-1", none⟩ "01A"
        ⟨none, some (.unknown "connection reset")⟩).1
      = (createAuditB ⟨[⟨"r-1", false⟩], []⟩ ⟨"r-1", true, "a-1", none⟩ "01A"
          ⟨some (.unknown "connection reset"), none⟩).1 := by
  constructor <;> rfl

/-- Claim C1, amended: when step 3 fails after step 2 succeeded, neither
variant rolls the new AuditRecord back: it stays appended to the audit
table.  The per-step variant returns a 500 whose fixed message states that
the audit was created but the report flag update failed, distinguishing the
step-3 failure from any step-2 failure of the same variant; the catch-all
variant returns only the catch-block classification of the underlying
error, with no step name. -/
theorem c1_step3_failure_audit_persisted (s : Store) (dto : CreateAuditDto)
    (auditId : String) (r : ReportRecord) (e : DbError)
    (hrep : findReport s dto.reportId = some r) :
    (createAuditA s dto auditId ⟨none, some e⟩).1
      = .error (.internalServerError "Audit was created, but marking the report as audited failed.")
    ∧ (createAuditA s dto auditId ⟨none, some e⟩).2.audits
      = s.audits ++ [⟨auditId, dto.reportId, dto.audited, dto.auditorId, dto.comments⟩]
    ∧ (createAuditA s dto auditId ⟨none, some e⟩).1
      ≠ (createAuditA s dto auditId ⟨some e, none⟩).1
    ∧ (createAuditB s dto auditId ⟨none, some e⟩).1
      = .error (classifyCreateAuditError e)
    ∧ (createAuditB s dto auditId ⟨none, some e⟩).2.audits
      = s.audits ++ [⟨auditId, dto.reportId, dto.audited, dto.auditorId, dto.comments⟩] := by
  refine ⟨?_, ?_, ?_, ?_, ?_⟩ <;>
    simp [createAuditA, createAuditB, hrep, addAudit]

/-- Claim C1 witness: report r-1 present, step 3 failing with a reset
connection: variant A returns its fixed step-3 message and the audit row is
still in the table; variant B returns the generic 500 with the audit row
likewise persisted. -/
theorem c1_step3_failure_audit_persisted_witness :
    (createAuditA ⟨[⟨"r-1", false⟩], []⟩ ⟨"r-1", true, "a-1", none⟩ "01A"
        ⟨none, some (.unknown "connection reset")⟩).1
      = .error (.internalServerError "Audit was created, but marking the report as audited failed.")
    ∧ (createAuditA ⟨[⟨"r-1", false⟩], []⟩ ⟨"r-1", true, "a-1", none⟩ "01A"
        ⟨none, some (.unknown "connection reset")⟩).2.audits
      = [] ++ [⟨"01A", "r-1", true, "a-1", none⟩]
    ∧ (createAuditA ⟨[⟨"r-1", false⟩], []⟩ ⟨"r-1", true, "a-1", none⟩ "01A"
        ⟨none, some (.unknown "connection reset")⟩).1
      ≠ (createAuditA ⟨[⟨"r-1", false⟩], []⟩ ⟨"r-1", true, "a-1", none⟩ "01A"
          ⟨some (.unknown "connection reset"), none⟩).1
    ∧ (createAuditB ⟨[⟨"r-1", false⟩], []⟩ ⟨"r-1", true, "a-1", none⟩ "01A"
        ⟨none, some (.unknown "connection reset")⟩).1
      = .error (classifyCreateAuditError (.unknown "connection reset"))
    ∧ (createAuditB ⟨[⟨"r-1", false⟩], []⟩ ⟨"r-1", true, "a-1", none⟩ "01A"
        ⟨none, some (.unknown "connection reset")⟩).2.audits
      = [] ++ [⟨"01A", "r-1", true, "a-1", none⟩] :=
  c1_step3_failure_audit_persisted ⟨[⟨"r-1", false⟩], []⟩ ⟨"r-1", true, "a-1", none⟩
    "01A" ⟨"r-1", false⟩ (.unknown "connection reset") (by decide)

end Recy
